import Mathlib

/-
Verification of the swarm communication server (pion/server.py).

The development shallowly embeds the parts of the code that the claims
touch:

* the command dispatch of SwarmCommunicator.process_incoming_state,
  including the neighbor map self.env, which vehicle operations are
  invoked, which exceptions are caught by a local try/except and which
  propagate to the caller;
* the heartbeat payload construction of UDPBroadcastClient.send;
* the last-octet helper extract_ip_id and, modelled from the spec, the
  instance-suffix identity allocator (its implementation is not under
  src/);
* the blocking navigation primitive smart_goto, as the trace of vehicle
  interactions it performs (the geometric reach test is an external
  collaborator and is abstracted as an oracle);
* modelled from the spec, the avoidance velocity law
  compute_swarm_velocity (its implementation is not under src/), and the
  src-level wrapper update_swarm_control around it.

Python floats carried by datagrams are embedded as rationals: the
dispatch code only moves them around, never computes with them.  The
avoidance law is embedded over the reals.
-/

namespace Pion

/-! ## Association lists: the Python dict operations used by the code -/

/-- Insertion into an association list with the semantics of a Python
dict assignment: overwrite the existing binding of the key when present,
otherwise append a fresh binding. -/
def alInsert {α β : Type} [DecidableEq α] (k : α) (v : β) : List (α × β) → List (α × β)
  | [] => [(k, v)]
  | (k₀, v₀) :: rest => if k₀ = k then (k, v) :: rest else (k₀, v₀) :: alInsert k v rest

/-- Lookup in an association list, the semantics of a Python dict read. -/
def alLookup {α β : Type} [DecidableEq α] (k : α) : List (α × β) → Option β
  | [] => none
  | (k₀, v₀) :: rest => if k₀ = k then some v₀ else alLookup k rest

/-! ## The datagram dispatch of process_incoming_state

Command codes, as defined at the top of server.py.  No constant and no
dispatch branch exists for a SetLed code. -/

def CMD_SET_SPEED : ℤ := 1
def CMD_GOTO : ℤ := 2
def CMD_TAKEOFF : ℤ := 3
def CMD_LAND : ℤ := 4
def CMD_ARM : ℤ := 5
def CMD_DISARM : ℤ := 6
def CMD_SMART_GOTO : ℤ := 7

/-- A decoded incoming datagram, as the queue hands it to
process_incoming_state.  Optional fields model the hasattr probes of the
Python code; the truthiness test on target_ip additionally treats an
empty string as absent. -/
structure IncomingState where
  command : ℤ
  target_ip : Option String
  id : Option ℕ
  ip : Option String
  data : List ℚ
  deriving DecidableEq

/-- The vehicle operations process_incoming_state can invoke on its
control object. -/
inductive VehicleOp
  | sendSpeed (vx vy vz yaw_rate : ℚ)
  | goto (x y z yaw : ℚ)
  | takeoff
  | land
  | arm
  | disarm
  | smartGoto (x y z yaw : ℚ)
  deriving DecidableEq

/-- Python exceptions observable at dispatch level: an exception raised
by a vehicle operation, a tuple-unpacking failure on state.data, and an
attribute access failure. -/
inductive PyError
  | opError (op : VehicleOp)
  | unpackError
  | attrError
  deriving DecidableEq

/-- The neighbor map self.env: heartbeats are keyed by state.id, and a
state with no id but an ip is keyed by state.ip. -/
inductive EnvKey
  | byId (n : ℕ)
  | byIp (s : String)
  deriving DecidableEq

def Env : Type := List (EnvKey × IncomingState)

/-- The observable outcome of one call to process_incoming_state: the
new neighbor map, the vehicle operations invoked, the exceptions caught
and logged by a local try/except, the exception propagated to the
caller when present, and whether the unknown-command branch logged. -/
structure DispatchResult where
  env : List (EnvKey × IncomingState)
  invoked : List VehicleOp
  caught : List PyError
  exn : Option PyError
  unknownCmd : Bool
  deriving DecidableEq

/-- An invocation of a vehicle operation that is not wrapped in a local
try/except: an exception raised by the operation propagates. -/
def runUnguarded (raises : VehicleOp → Bool) (env : List (EnvKey × IncomingState))
    (op : VehicleOp) : DispatchResult :=
  if raises op then ⟨env, [op], [], some (PyError.opError op), false⟩
  else ⟨env, [op], [], none, false⟩

/-- The command chain of process_incoming_state, reached when the
command is nonzero and the datagram is not filtered away by a foreign
target_ip.  The parameter raises says which vehicle operations raise
when invoked.  set_speed and goto run inside try/except blocks that
also cover the unpacking of state.data; takeoff, land, arm, disarm and
smart_goto run unguarded, and for smart_goto even the unpacking of
state.data is unguarded. -/
def dispatch_command (raises : VehicleOp → Bool) (env : List (EnvKey × IncomingState))
    (st : IncomingState) : DispatchResult :=
  if st.command = CMD_SET_SPEED then
    match st.data with
    | [vx, vy, vz, yaw_rate] =>
      let op := VehicleOp.sendSpeed vx vy vz yaw_rate
      if raises op then ⟨env, [op], [PyError.opError op], none, false⟩
      else ⟨env, [op], [], none, false⟩
    | _ => ⟨env, [], [PyError.unpackError], none, false⟩
  else if st.command = CMD_GOTO then
    match st.data with
    | [x, y, z, yaw] =>
      let op := VehicleOp.goto x y z yaw
      if raises op then ⟨env, [op], [PyError.opError op], none, false⟩
      else ⟨env, [op], [], none, false⟩
    | _ => ⟨env, [], [PyError.unpackError], none, false⟩
  else if st.command = CMD_TAKEOFF then runUnguarded raises env VehicleOp.takeoff
  else if st.command = CMD_LAND then runUnguarded raises env VehicleOp.land
  else if st.command = CMD_ARM then runUnguarded raises env VehicleOp.arm
  else if st.command = CMD_DISARM then runUnguarded raises env VehicleOp.disarm
  else if st.command = CMD_SMART_GOTO then
    match st.data with
    | [x, y, z, yaw] => runUnguarded raises env (VehicleOp.smartGoto x y z yaw)
    | _ => ⟨env, [], [], some PyError.unpackError, false⟩
  else ⟨env, [], [], none, true⟩

/-- SwarmCommunicator.process_incoming_state.  A nonzero command with a
present, nonempty target_ip different from the local ip is not
executed: the state is stored under state.id and the function returns.
Otherwise a nonzero command is dispatched; a zero command is a
heartbeat and the state is stored under state.id when present, else
under state.ip when present. -/
def process_incoming_state (local_ip : String) (raises : VehicleOp → Bool)
    (env : List (EnvKey × IncomingState)) (st : IncomingState) : DispatchResult :=
  if st.command ≠ 0 then
    match st.target_ip with
    | some tip =>
      if tip ≠ "" then
        if tip ≠ local_ip then
          match st.id with
          | some i => ⟨alInsert (EnvKey.byId i) st env, [], [], none, false⟩
          | none => ⟨env, [], [], some PyError.attrError, false⟩
        else dispatch_command raises env st
      else dispatch_command raises env st
    | none => dispatch_command raises env st
  else
    match st.id with
    | some i => ⟨alInsert (EnvKey.byId i) st env, [], [], none, false⟩
    | none =>
      match st.ip with
      | some s => ⟨alInsert (EnvKey.byIp s) st env, [], [], none, false⟩
      | none => ⟨env, [], [], none, false⟩

/-! ## The heartbeat payload of UDPBroadcastClient.send -/

/-- The data field UDPBroadcastClient.send serializes for a heartbeat:
the numeric encoding of the ip, followed by the position values,
followed by the attitude values. -/
def send_data (ip_num : ℚ) (pos att : List ℚ) : List ℚ :=
  [ip_num] ++ pos ++ att

/-! ## Identity -/

/-- The last-octet helper extract_ip_id: split the ip on dots; with
four parts whose last parses as an integer, return that integer, else
fall back to a hash of the whole string modulo 1000.  The Python hash
builtin is abstracted as the nonnegative parameter hashFn, standing for
abs(hash(ip)). -/
def extract_ip_id (hashFn : String → ℕ) (ip : String) : ℤ :=
  match ip.splitOn "." with
  | [_, _, _, d] =>
    match d.toInt? with
    | some n => n
    | none => ((hashFn ip) % 1000 : ℕ)
  | _ => ((hashFn ip) % 1000 : ℕ)

/-- Modelled from the spec: the identity allocator
uniqueId(ip, instanceNumber) with an explicit instance number is not
under src/ (src/pion/server.py holds only the last-octet helper
extract_ip_id).  Per the spec, it returns the bare last-octet string
when the instance number equals "1" and otherwise the octet, a dash and
the instance number. -/
def uniqueIdWith (hashFn : String → ℕ) (ip : String) (inst : String) : String :=
  if inst = "1" then toString (extract_ip_id hashFn ip)
  else toString (extract_ip_id hashFn ip) ++ "-" ++ inst

/-- Modelled from the spec: the no-instance-number form of the identity
allocator is not under src/.  Per the spec, a process-scoped counter
keyed by the ip is incremented and the result is formed as in the
explicit-instance case; the function returns the new identity together
with the updated counter table. -/
def uniqueIdAuto (hashFn : String → ℕ) (counters : List (String × ℕ)) (ip : String) :
    String × List (String × ℕ) :=
  let n := (alLookup ip counters).getD 0 + 1
  (uniqueIdWith hashFn ip (toString n), alInsert ip n counters)

/-! ## The navigation primitive smart_goto

smart_goto is embedded as the trace of interactions it performs with
the control object.  The reach test of each loop iteration, the
conjunction of vector_reached on the recent-position history and the
near-zero test on the attitude rates, depends on external geometry
collaborators and live vehicle state; it is abstracted as the oracle
checks, giving the value of that conjunction at the n-th loop
iteration.  The loop takes fuel to stay structurally recursive; a run
that does not terminate within fuel iterations yields none. -/

inductive GotoEvent
  | setV
  | gotoYaw (yaw : ℚ)
  | sleep (secs : ℚ)
  | navCommand (x y : ℚ)
  | zeroVel
  deriving DecidableEq

/-- One while-loop iteration of smart_goto appends a velocity command
through update_swarm_control and a control-period sleep; the loop exits
when the reach test evaluated at the start of the iteration was true. -/
def smart_goto_loop (checks : ℕ → Bool) (period x y : ℚ) : ℕ → ℕ → Option (List GotoEvent)
  | 0, _ => none
  | fuel + 1, n =>
    let body := [GotoEvent.navCommand x y, GotoEvent.sleep period]
    if checks n then some body
    else (smart_goto_loop checks period x y fuel (n + 1)).map (fun rest => body ++ rest)

/-- SwarmCommunicator.smart_goto as an event trace: enter velocity
mode, align yaw, sleep one control period, run the navigation loop,
then sleep half a second and zero the commanded velocity.  The z
parameter is accepted but takes no part in the computation, as in the
source. -/
def smart_goto (checks : ℕ → Bool) (period : ℚ) (x y z yaw : ℚ) (fuel : ℕ) :
    Option (List GotoEvent) :=
  (smart_goto_loop checks period x y fuel 0).map (fun loopEvs =>
    [GotoEvent.setV, GotoEvent.gotoYaw yaw, GotoEvent.sleep period] ++ loopEvs
      ++ [GotoEvent.sleep (1 / 2), GotoEvent.zeroVel])

def isNav : GotoEvent → Bool
  | GotoEvent.navCommand _ _ => true
  | _ => false

/-- The number of velocity commands (update_swarm_control calls) in a
smart_goto trace. -/
def countNav : List GotoEvent → ℕ
  | [] => 0
  | e :: rest => (if isNav e then 1 else 0) + countNav rest

/-! ## The avoidance velocity law and update_swarm_control -/

def vadd (u v : ℝ × ℝ) : ℝ × ℝ := (u.1 + v.1, u.2 + v.2)

def vsub (u v : ℝ × ℝ) : ℝ × ℝ := (u.1 - v.1, u.2 - v.2)

def smul2 (c : ℝ) (v : ℝ × ℝ) : ℝ × ℝ := (c * v.1, c * v.2)

noncomputable def norm2 (v : ℝ × ℝ) : ℝ := Real.sqrt (v.1 ^ 2 + v.2 ^ 2)

/-- Modelled from the spec: the normalization helper consumed by the
velocity law is an external collaborator (pion/functions.py, not under
src/); the zero vector is guarded explicitly. -/
noncomputable def normalization (v : ℝ × ℝ) : ℝ × ℝ :=
  if norm2 v = 0 then (0, 0) else smul2 (1 / norm2 v) v

/-- Modelled from the spec: the speed clamp consumed by the velocity
law is an external collaborator; a vector longer than max_speed is
rescaled to that magnitude, direction preserved. -/
noncomputable def limit_speed (v : ℝ × ℝ) (max_speed : ℝ) : ℝ × ℝ :=
  if max_speed < norm2 v then smul2 (max_speed / norm2 v) v else v

/-- Modelled from the spec: the repulsive contribution of one neighbor
within safety_radius points away from the neighbor, grows as the
separation shrinks, vanishes at safety_radius, and guards the zero
separation with an explicit epsilon. -/
noncomputable def repulsionFrom (pos : ℝ × ℝ) (safety_radius : ℝ) (nbr : ℝ × ℝ) : ℝ × ℝ :=
  let diff := vsub pos nbr
  let d := norm2 diff
  if d < safety_radius then smul2 ((safety_radius - d) / (d + 1 / 1000000)) diff else (0, 0)

/-- Modelled from the spec: compute_swarm_velocity lives in
pion/functions.py, which is not under src/.  Per the spec, the
attractive component is the unit vector toward the target scaled by
the distance and saturated at max_speed, the repulsive component sums
the contributions of all neighbors, and the resultant is clipped to
max_speed. -/
noncomputable def compute_swarm_velocity (pos : ℝ × ℝ) (neighbors : List (ℝ × ℝ))
    (target : ℝ × ℝ) (safety_radius max_speed : ℝ) : ℝ × ℝ :=
  let direction := vsub target pos
  let dist := norm2 direction
  let attract := smul2 (min dist max_speed) (normalization direction)
  let rep := neighbors.foldr (fun n acc => vadd (repulsionFrom pos safety_radius n) acc) (0, 0)
  limit_speed (vadd attract rep) max_speed

/-- The control-object fields update_swarm_control reads and writes. -/
structure ControlObject where
  position : ℝ × ℝ
  max_speed : ℝ

/-- The SwarmCommunicator fields that update_swarm_control touches:
the control object, the neighbor positions drawn from self.env, the
safety radius and the max_speed stored by the constructor. -/
structure SwarmComm where
  control_object : ControlObject
  env : List (ℝ × ℝ)
  safety_radius : ℝ
  max_speed : ℝ

/-- SwarmCommunicator.update_swarm_control: the new t_speed written to
the control object.  As in the source, the max_speed passed to the law
is control_object.max_speed, not the field of the communicator. -/
noncomputable def update_swarm_control (c : SwarmComm) (target : ℝ × ℝ) : ℝ × ℝ × ℝ × ℝ :=
  let new_vel := compute_swarm_velocity c.control_object.position c.env target
    c.safety_radius c.control_object.max_speed
  (new_vel.1, new_vel.2, 0, 0)

/-! ## Concrete states used by witnesses -/

def stTakeoff : IncomingState := ⟨3, none, some 1, none, []⟩

def stLand : IncomingState := ⟨4, none, some 1, none, []⟩

def stNbr : IncomingState := ⟨0, none, some 3, none, []⟩

def stHb : IncomingState := ⟨0, none, some 9, none, []⟩

/-! ## Association list lemmas -/

theorem alLookup_alInsert_self {α β : Type} [DecidableEq α] (k : α) (v : β) :
    ∀ l : List (α × β), alLookup k (alInsert k v l) = some v := by
  intro l
  induction l with
  | nil => simp [alInsert, alLookup]
  | cons p rest ih =>
    obtain ⟨a, b⟩ := p
    by_cases hak : a = k
    · simp [alInsert, alLookup, hak]
    · simp [alInsert, alLookup, hak, ih]

theorem alLookup_alInsert_isSome {α β : Type} [DecidableEq α] (q k : α) (v : β) :
    ∀ l : List (α × β), (alLookup q l).isSome = true →
      (alLookup q (alInsert k v l)).isSome = true := by
  intro l
  induction l with
  | nil => intro h; simp [alLookup] at h
  | cons p rest ih =>
    obtain ⟨a, b⟩ := p
    intro h
    by_cases hak : a = k
    · subst hak
      by_cases haq : a = q
      · simp [alInsert, alLookup, haq]
      · simp [alLookup, haq] at h
        simp [alInsert, alLookup, haq, h]
    · by_cases haq : a = q
      · subst haq
        simp [alInsert, alLookup, hak]
      · simp [alLookup, haq] at h
        simp [alInsert, alLookup, hak, haq, ih h]

/-! ## Dispatch lemmas -/

theorem dispatch_command_env_eq (raises : VehicleOp → Bool)
    (env : List (EnvKey × IncomingState)) (st : IncomingState) :
    (dispatch_command raises env st).env = env := by
  unfold dispatch_command runUnguarded
  repeat' split
  all_goals dsimp only []
  all_goals repeat' split
  all_goals rfl

theorem process_env_mono (local_ip : String) (raises : VehicleOp → Bool)
    (env : List (EnvKey × IncomingState)) (st : IncomingState) (k : EnvKey)
    (hk : (alLookup k env).isSome = true) :
    (alLookup k (process_incoming_state local_ip raises env st).env).isSome = true := by
  unfold process_incoming_state
  repeat' split
  all_goals try rw [dispatch_command_env_eq]
  all_goals first
    | exact hk
    | exact alLookup_alInsert_isSome k _ _ env hk

theorem process_eq_dispatch (local_ip : String) (raises : VehicleOp → Bool)
    (env : List (EnvKey × IncomingState)) (st : IncomingState)
    (hc : st.command ≠ 0)
    (h : st.target_ip = none ∨ st.target_ip = some local_ip) :
    process_incoming_state local_ip raises env st = dispatch_command raises env st := by
  rcases h with h | h <;> simp [process_incoming_state, hc, h]

theorem dispatch_command_exn_guarded (raises : VehicleOp → Bool)
    (env : List (EnvKey × IncomingState)) (st : IncomingState)
    (h : st.command = CMD_SET_SPEED ∨ st.command = CMD_GOTO) :
    (dispatch_command raises env st).exn = none := by
  rcases h with h | h <;>
    (simp [dispatch_command, h, CMD_SET_SPEED, CMD_GOTO]
     repeat' split
     all_goals rfl)

/-! ## Claim C1 -/

/-- C1: a datagram with a nonzero command and a present, nonempty
target ip different from the local ip invokes no vehicle operation: the
call only upserts the neighbor store under the sender id and returns,
with no exception, no caught error and no unknown-command log. -/
theorem C1_foreign_target_only_upsert (local_ip : String) (raises : VehicleOp → Bool)
    (env : List (EnvKey × IncomingState)) (st : IncomingState) (t : String) (i : ℕ)
    (hc : st.command ≠ 0) (ht : st.target_ip = some t) (hne : t ≠ "")
    (hfor : t ≠ local_ip) (hid : st.id = some i) :
    process_incoming_state local_ip raises env st
      = ⟨alInsert (EnvKey.byId i) st env, [], [], none, false⟩ := by
  simp [process_incoming_state, hc, ht, hne, hfor, hid]

theorem C1_foreign_target_only_upsert_witness :
    process_incoming_state "10.1.1.5" (fun _ => true) []
        ⟨1, some "10.1.1.9", some 7, none, [1, 2, 3, 4]⟩
      = ⟨alInsert (EnvKey.byId 7) ⟨1, some "10.1.1.9", some 7, none, [1, 2, 3, 4]⟩ [],
         [], [], none, false⟩ :=
  C1_foreign_target_only_upsert "10.1.1.5" (fun _ => true) []
    ⟨1, some "10.1.1.9", some 7, none, [1, 2, 3, 4]⟩ "10.1.1.9" 7
    (by decide) rfl (by decide) (by decide) rfl

/-! ## Claim C2 -/

/-- C2 is false on the code: the try/except blocks cover only set_speed
and goto, so an exception raised by takeoff on a broadcast takeoff
datagram propagates out of process_incoming_state. -/
theorem C2_counterexample :
    (process_incoming_state "10.1.1.5" (fun _ => true) []
        ⟨3, none, some 1, none, []⟩).exn ≠ none := by
  decide

/-- C2 (amended): errors raised by set_speed and goto (commands 1 and
2) are caught and do not propagate; errors raised by takeoff, land,
arm, disarm and smart_goto (commands 3 to 7) propagate out of
process_incoming_state. -/
theorem C2_guarded_and_unguarded_errors (local_ip : String) (raises : VehicleOp → Bool)
    (env : List (EnvKey × IncomingState)) (st : IncomingState) (x y z yaw : ℚ)
    (htgt : st.target_ip = none ∨ st.target_ip = some local_ip) :
    ((st.command = CMD_SET_SPEED ∨ st.command = CMD_GOTO) →
      (process_incoming_state local_ip raises env st).exn = none)
    ∧ (st.command = CMD_TAKEOFF → raises VehicleOp.takeoff = true →
      (process_incoming_state local_ip raises env st).exn
        = some (PyError.opError VehicleOp.takeoff))
    ∧ (st.command = CMD_LAND → raises VehicleOp.land = true →
      (process_incoming_state local_ip raises env st).exn
        = some (PyError.opError VehicleOp.land))
    ∧ (st.command = CMD_ARM → raises VehicleOp.arm = true →
      (process_incoming_state local_ip raises env st).exn
        = some (PyError.opError VehicleOp.arm))
    ∧ (st.command = CMD_DISARM → raises VehicleOp.disarm = true →
      (process_incoming_state local_ip raises env st).exn
        = some (PyError.opError VehicleOp.disarm))
    ∧ (st.command = CMD_SMART_GOTO → st.data = [x, y, z, yaw] →
        raises (VehicleOp.smartGoto x y z yaw) = true →
      (process_incoming_state local_ip raises env st).exn
        = some (PyError.opError (VehicleOp.smartGoto x y z yaw))) := by
  refine ⟨?_, ?_, ?_, ?_, ?_, ?_⟩
  · intro h
    have hc : st.command ≠ 0 := by
      rcases h with h | h <;> simp [h, CMD_SET_SPEED, CMD_GOTO]
    rw [process_eq_dispatch local_ip raises env st hc htgt]
    exact dispatch_command_exn_guarded raises env st h
  · intro h hr
    have hc : st.command ≠ 0 := by simp [h, CMD_TAKEOFF]
    rw [process_eq_dispatch local_ip raises env st hc htgt]
    simp [dispatch_command, h, CMD_SET_SPEED, CMD_GOTO, CMD_TAKEOFF, runUnguarded, hr]
  · intro h hr
    have hc : st.command ≠ 0 := by simp [h, CMD_LAND]
    rw [process_eq_dispatch local_ip raises env st hc htgt]
    simp [dispatch_command, h, CMD_SET_SPEED, CMD_GOTO, CMD_TAKEOFF, CMD_LAND,
      runUnguarded, hr]
  · intro h hr
    have hc : st.command ≠ 0 := by simp [h, CMD_ARM]
    rw [process_eq_dispatch local_ip raises env st hc htgt]
    simp [dispatch_command, h, CMD_SET_SPEED, CMD_GOTO, CMD_TAKEOFF, CMD_LAND, CMD_ARM,
      runUnguarded, hr]
  · intro h hr
    have hc : st.command ≠ 0 := by simp [h, CMD_DISARM]
    rw [process_eq_dispatch local_ip raises env st hc htgt]
    simp [dispatch_command, h, CMD_SET_SPEED, CMD_GOTO, CMD_TAKEOFF, CMD_LAND, CMD_ARM,
      CMD_DISARM, runUnguarded, hr]
  · intro h hd hr
    have hc : st.command ≠ 0 := by simp [h, CMD_SMART_GOTO]
    rw [process_eq_dispatch local_ip raises env st hc htgt]
    simp [dispatch_command, h, hd, CMD_SET_SPEED, CMD_GOTO, CMD_TAKEOFF, CMD_LAND,
      CMD_ARM, CMD_DISARM, CMD_SMART_GOTO, runUnguarded, hr]

theorem C2_guarded_and_unguarded_errors_witness :
    (process_incoming_state "10.1.1.7" (fun _ => true) [] stTakeoff).exn
      = some (PyError.opError VehicleOp.takeoff) :=
  (C2_guarded_and_unguarded_errors "10.1.1.7" (fun _ => true) [] stTakeoff 0 0 0 0
    (Or.inl rfl)).2.1 rfl rfl

/-! ## Claim C6 -/

/-- C6 is false on the code: server.py defines no command code 8 and no
SetLed branch, so a broadcast datagram with command 8 invokes no
vehicle operation at all and falls into the unknown-command log. -/
theorem C6_counterexample :
    process_incoming_state "10.1.1.5" (fun _ => false) []
        ⟨8, none, some 2, none, [1, 2, 3, 4]⟩
      = ⟨[], [], [], none, true⟩ := rfl

/-- C6 (amended): a datagram with command code 8 addressed to this
agent or broadcast is logged as an unknown command; no vehicle
operation is invoked and the neighbor store is unchanged. -/
theorem C6_unknown_command (local_ip : String) (raises : VehicleOp → Bool)
    (env : List (EnvKey × IncomingState)) (st : IncomingState)
    (h8 : st.command = 8) (htgt : st.target_ip = none ∨ st.target_ip = some local_ip) :
    process_incoming_state local_ip raises env st = ⟨env, [], [], none, true⟩ := by
  have hc : st.command ≠ 0 := by rw [h8]; decide
  rw [process_eq_dispatch local_ip raises env st hc htgt]
  simp [dispatch_command, h8, CMD_SET_SPEED, CMD_GOTO, CMD_TAKEOFF, CMD_LAND, CMD_ARM,
    CMD_DISARM, CMD_SMART_GOTO]

theorem C6_unknown_command_witness :
    process_incoming_state "10.1.1.5" (fun _ => false) []
        ⟨8, some "10.1.1.5", some 2, none, []⟩
      = ⟨[], [], [], none, true⟩ :=
  C6_unknown_command "10.1.1.5" (fun _ => false) [] ⟨8, some "10.1.1.5", some 2, none, []⟩
    rfl (Or.inr rfl)

/-! ## Claim C8 -/

/-- C8: a heartbeat (command 0) carrying a sender id upserts exactly
the key of that id with the decoded state, and no call to
process_incoming_state, whatever its input, removes a key from the
neighbor store. -/
theorem C8_heartbeat_upsert_and_no_removal (local_ip : String) (raises : VehicleOp → Bool)
    (env : List (EnvKey × IncomingState)) (st st₂ : IncomingState) (i : ℕ) (k : EnvKey)
    (h0 : st.command = 0) (hid : st.id = some i)
    (hk : (alLookup k env).isSome = true) :
    process_incoming_state local_ip raises env st
      = ⟨alInsert (EnvKey.byId i) st env, [], [], none, false⟩
    ∧ (alLookup k (process_incoming_state local_ip raises env st₂).env).isSome = true := by
  constructor
  · simp [process_incoming_state, h0, hid]
  · exact process_env_mono local_ip raises env st₂ k hk

theorem C8_heartbeat_upsert_and_no_removal_witness :
    process_incoming_state "10.1.1.5" (fun _ => true) [(EnvKey.byId 3, stNbr)] stHb
      = ⟨alInsert (EnvKey.byId 9) stHb [(EnvKey.byId 3, stNbr)], [], [], none, false⟩
    ∧ (alLookup (EnvKey.byId 3)
        (process_incoming_state "10.1.1.5" (fun _ => true)
          [(EnvKey.byId 3, stNbr)] stLand).env).isSome = true :=
  C8_heartbeat_upsert_and_no_removal "10.1.1.5" (fun _ => true) [(EnvKey.byId 3, stNbr)]
    stHb stLand 9 (EnvKey.byId 3) rfl rfl (by decide)

/-! ## Claim C4 -/

/-- C4 is false on the code: with a three-value position and a
three-value attitude, the heartbeat data is the ip encoding followed by
six pose values, a sequence of seven values, not six. -/
theorem C4_counterexample :
    (send_data 167772161 [1, 2, 3] [4, 5, 6]).length ≠ 6 ∧
    (send_data 167772161 [1, 2, 3] [4, 5, 6]).length = 7 := by
  decide

/-- C4 (amended): for every heartbeat sent with a three-value position
and a three-value attitude, the payload is a sequence of exactly seven
values: the encoded ip, the position values and the attitude values. -/
theorem C4_heartbeat_payload_length (ip_num : ℚ) (pos att : List ℚ)
    (hp : pos.length = 3) (ha : att.length = 3) :
    (send_data ip_num pos att).length = 7 := by
  simp [send_data, hp, ha]

theorem C4_heartbeat_payload_length_witness :
    ([(1 : ℚ), 2, 3].length = 3) ∧ ([(4 : ℚ), 5, 6].length = 3) ∧
    (send_data 167772161 [1, 2, 3] [4, 5, 6]).length = 7 :=
  ⟨rfl, rfl, C4_heartbeat_payload_length 167772161 [1, 2, 3] [4, 5, 6] rfl rfl⟩

/-! ## Claim C5 -/

/-- C5 is false on the code: the loop body of smart_goto runs before
the loop condition is re-examined, so a call that starts already at the
target still performs one navigation iteration, commanding a velocity
through update_swarm_control once, not zero times. -/
theorem C5_counterexample :
    Option.map countNav (smart_goto (fun _ => true) (1 / 20) 3 4 0 0 1) ≠ some 0 := by
  decide

/-- C5 (amended): a smart_goto call whose reach test holds at the first
iteration performs the yaw-alignment step and then exactly one
navigation iteration, with a single velocity command through
update_swarm_control, before terminating. -/
theorem C5_one_navigation_iteration (checks : ℕ → Bool) (period x y z yaw : ℚ) (fuel : ℕ)
    (h0 : checks 0 = true) (hf : 1 ≤ fuel) :
    smart_goto checks period x y z yaw fuel
      = some [GotoEvent.setV, GotoEvent.gotoYaw yaw, GotoEvent.sleep period,
              GotoEvent.navCommand x y, GotoEvent.sleep period,
              GotoEvent.sleep (1 / 2), GotoEvent.zeroVel]
    ∧ Option.map countNav (smart_goto checks period x y z yaw fuel) = some 1 := by
  obtain ⟨f, rfl⟩ : ∃ f, fuel = f + 1 := ⟨fuel - 1, by omega⟩
  have htr : smart_goto checks period x y z yaw (f + 1)
      = some [GotoEvent.setV, GotoEvent.gotoYaw yaw, GotoEvent.sleep period,
              GotoEvent.navCommand x y, GotoEvent.sleep period,
              GotoEvent.sleep (1 / 2), GotoEvent.zeroVel] := by
    simp [smart_goto, smart_goto_loop, h0]
  refine ⟨htr, ?_⟩
  rw [htr]
  simp [countNav, isNav]

theorem C5_one_navigation_iteration_witness :
    ((fun _ : ℕ => true) 0 = true) ∧ (1 ≤ 1) ∧
    (smart_goto (fun _ => true) (1 / 20) 3 4 0 0 1
      = some [GotoEvent.setV, GotoEvent.gotoYaw 0, GotoEvent.sleep (1 / 20),
              GotoEvent.navCommand 3 4, GotoEvent.sleep (1 / 20),
              GotoEvent.sleep (1 / 2), GotoEvent.zeroVel]
    ∧ Option.map countNav (smart_goto (fun _ => true) (1 / 20) 3 4 0 0 1) = some 1) :=
  ⟨rfl, le_refl 1,
    C5_one_navigation_iteration (fun _ => true) (1 / 20) 3 4 0 0 1 rfl (le_refl 1)⟩

/-! ## Claim C9 -/

theorem drop_last_two {α : Type} (l : List α) (a b : α) :
    (l ++ [a, b]).drop ((l ++ [a, b]).length - 2) = [a, b] := by
  have h1 : (l ++ [a, b]).length - 2 = l.length := by simp
  rw [h1]
  exact List.drop_left l [a, b]

/-- C9 is false on the code: when the navigation loop of smart_goto
terminates, the function first sleeps half a second with the last
commanded velocity still in force and only then zeroes the velocity;
the zeroing is the final event, not the first of the two. -/
theorem C9_counterexample :
    Option.map (fun t => t.drop (t.length - 2))
        (smart_goto (fun _ => true) (1 / 10) 1 2 0 0 1)
      ≠ some [GotoEvent.zeroVel, GotoEvent.sleep (1 / 2)] := by
  decide

/-- C9 (amended): every terminating smart_goto call ends with a sleep
of half a second followed by the zeroing of the commanded velocity, in
that order, and returns immediately after the zeroing. -/
theorem C9_sleep_then_zero (checks : ℕ → Bool) (period x y z yaw : ℚ) (fuel : ℕ)
    (t : List GotoEvent)
    (h : smart_goto checks period x y z yaw fuel = some t) :
    t.drop (t.length - 2) = [GotoEvent.sleep (1 / 2), GotoEvent.zeroVel] := by
  unfold smart_goto at h
  cases hl : smart_goto_loop checks period x y fuel 0 with
  | none => rw [hl] at h; simp at h
  | some l =>
    rw [hl] at h
    have h₂ : ([GotoEvent.setV, GotoEvent.gotoYaw yaw, GotoEvent.sleep period] ++ l
        ++ [GotoEvent.sleep (1 / 2), GotoEvent.zeroVel]) = t := by
      simpa using h
    rw [← h₂]
    exact drop_last_two _ _ _

theorem C9_sleep_then_zero_witness :
    ([GotoEvent.setV, GotoEvent.gotoYaw 0, GotoEvent.sleep (1 / 10),
      GotoEvent.navCommand 1 2, GotoEvent.sleep (1 / 10),
      GotoEvent.sleep (1 / 2), GotoEvent.zeroVel].drop
        ([GotoEvent.setV, GotoEvent.gotoYaw 0, GotoEvent.sleep (1 / 10),
          GotoEvent.navCommand 1 2, GotoEvent.sleep (1 / 10),
          GotoEvent.sleep (1 / 2), GotoEvent.zeroVel].length - 2))
      = [GotoEvent.sleep (1 / 2), GotoEvent.zeroVel] :=
  C9_sleep_then_zero (fun _ => true) (1 / 10) 1 2 0 0 1 _ rfl

/-! ## Claim C7 -/

theorem string_ne_append_two (s t u : String) (h : t.length + u.length ≠ 0) :
    s ≠ s ++ t ++ u := by
  intro hcontra
  have hlen := congrArg String.length hcontra
  rw [String.length_append, String.length_append] at hlen
  omega

/-- C7: the identity allocator returns the bare last-octet string for
an explicit instance number "1" and octet-dash-instance otherwise; with
no instance number, successive calls for the same ip return the bare
octet, then the octet with suffix dash two, then dash three, all
pairwise distinct through the per-ip counter. -/
theorem C7_unique_id (hashFn : String → ℕ) (cs : List (String × ℕ)) (ip inst : String)
    (hinst : inst ≠ "1") (hip : alLookup ip cs = none) :
    uniqueIdWith hashFn ip "1" = toString (extract_ip_id hashFn ip)
    ∧ uniqueIdWith hashFn ip inst = toString (extract_ip_id hashFn ip) ++ "-" ++ inst
    ∧ (uniqueIdAuto hashFn cs ip).1 = toString (extract_ip_id hashFn ip)
    ∧ (uniqueIdAuto hashFn (uniqueIdAuto hashFn cs ip).2 ip).1
        = toString (extract_ip_id hashFn ip) ++ "-" ++ "2"
    ∧ (uniqueIdAuto hashFn (uniqueIdAuto hashFn (uniqueIdAuto hashFn cs ip).2 ip).2 ip).1
        = toString (extract_ip_id hashFn ip) ++ "-" ++ "3"
    ∧ (uniqueIdAuto hashFn cs ip).1
        ≠ (uniqueIdAuto hashFn (uniqueIdAuto hashFn cs ip).2 ip).1 := by
  have h1 : uniqueIdWith hashFn ip "1" = toString (extract_ip_id hashFn ip) := by
    simp [uniqueIdWith]
  have h2 : uniqueIdWith hashFn ip inst
      = toString (extract_ip_id hashFn ip) ++ "-" ++ inst := by
    simp [uniqueIdWith, hinst]
  have t1 : toString (1 : ℕ) = "1" := rfl
  have t2 : toString (2 : ℕ) = "2" := rfl
  have t3 : toString (3 : ℕ) = "3" := rfl
  have hc1 : uniqueIdAuto hashFn cs ip
      = (toString (extract_ip_id hashFn ip), alInsert ip 1 cs) := by
    simp [uniqueIdAuto, uniqueIdWith, hip, t1]
  have hc2 : uniqueIdAuto hashFn (alInsert ip 1 cs) ip
      = (toString (extract_ip_id hashFn ip) ++ "-" ++ "2",
         alInsert ip 2 (alInsert ip 1 cs)) := by
    simp [uniqueIdAuto, uniqueIdWith, alLookup_alInsert_self, t2]
  have hc3 : uniqueIdAuto hashFn (alInsert ip 2 (alInsert ip 1 cs)) ip
      = (toString (extract_ip_id hashFn ip) ++ "-" ++ "3",
         alInsert ip 3 (alInsert ip 2 (alInsert ip 1 cs))) := by
    simp [uniqueIdAuto, uniqueIdWith, alLookup_alInsert_self, t3]
  refine ⟨h1, h2, ?_, ?_, ?_, ?_⟩
  · rw [hc1]
  · rw [hc1, hc2]
  · rw [hc1, hc2, hc3]
  · rw [hc1, hc2]
    exact string_ne_append_two _ "-" "2" (by decide)

theorem C7_unique_id_witness :
    uniqueIdWith (fun _ => 0) "192.168.0.15" "1"
      = toString (extract_ip_id (fun _ => 0) "192.168.0.15")
    ∧ uniqueIdWith (fun _ => 0) "192.168.0.15" "4"
      = toString (extract_ip_id (fun _ => 0) "192.168.0.15") ++ "-" ++ "4"
    ∧ (uniqueIdAuto (fun _ => 0) [] "192.168.0.15").1
      = toString (extract_ip_id (fun _ => 0) "192.168.0.15")
    ∧ (uniqueIdAuto (fun _ => 0) (uniqueIdAuto (fun _ => 0) [] "192.168.0.15").2
        "192.168.0.15").1
      = toString (extract_ip_id (fun _ => 0) "192.168.0.15") ++ "-" ++ "2"
    ∧ (uniqueIdAuto (fun _ => 0)
        (uniqueIdAuto (fun _ => 0) (uniqueIdAuto (fun _ => 0) [] "192.168.0.15").2
          "192.168.0.15").2 "192.168.0.15").1
      = toString (extract_ip_id (fun _ => 0) "192.168.0.15") ++ "-" ++ "3"
    ∧ (uniqueIdAuto (fun _ => 0) [] "192.168.0.15").1
      ≠ (uniqueIdAuto (fun _ => 0) (uniqueIdAuto (fun _ => 0) [] "192.168.0.15").2
          "192.168.0.15").1 :=
  C7_unique_id (fun _ => 0) [] "192.168.0.15" "4" (by decide) rfl

/-! ## Claim C3 -/

theorem vadd_zero (v : ℝ × ℝ) : vadd v (0, 0) = v := by
  simp [vadd]

theorem norm2_nonneg (v : ℝ × ℝ) : 0 ≤ norm2 v := Real.sqrt_nonneg _

theorem norm2_smul2 (c : ℝ) (v : ℝ × ℝ) : norm2 (smul2 c v) = |c| * norm2 v := by
  unfold norm2 smul2
  rw [mul_pow, mul_pow, ← mul_add, Real.sqrt_mul (sq_nonneg c), Real.sqrt_sq_eq_abs]

theorem norm2_normalization (v : ℝ × ℝ) (h : norm2 v ≠ 0) :
    norm2 (normalization v) = 1 := by
  unfold normalization
  rw [if_neg h, norm2_smul2, abs_of_nonneg (div_nonneg zero_le_one (norm2_nonneg v)),
    one_div_mul_cancel h]

/-- C3: with an empty neighbor map the avoidance velocity is pure seek:
the normalized direction from self to target scaled by the minimum of
max_speed and the distance to the target. -/
theorem C3_zero_neighbors_pure_seek (pos target : ℝ × ℝ) (sr ms : ℝ)
    (hd : norm2 (vsub target pos) ≠ 0) (hms : 0 ≤ ms) :
    compute_swarm_velocity pos [] target sr ms
      = smul2 (min ms (norm2 (vsub target pos))) (normalization (vsub target pos)) := by
  show limit_speed (vadd
      (smul2 (min (norm2 (vsub target pos)) ms) (normalization (vsub target pos)))
      (0, 0)) ms
    = smul2 (min ms (norm2 (vsub target pos))) (normalization (vsub target pos))
  rw [vadd_zero]
  have hattr : norm2 (smul2 (min (norm2 (vsub target pos)) ms)
      (normalization (vsub target pos))) = min (norm2 (vsub target pos)) ms := by
    rw [norm2_smul2, norm2_normalization _ hd, mul_one,
      abs_of_nonneg (le_min (norm2_nonneg _) hms)]
  unfold limit_speed
  rw [hattr, if_neg (not_lt.mpr (min_le_right _ _)), min_comm]

theorem C3_zero_neighbors_pure_seek_witness :
    norm2 (vsub ((1 : ℝ), (0 : ℝ)) (0, 0)) ≠ 0 ∧ (0 : ℝ) ≤ 2 ∧
    compute_swarm_velocity (0, 0) [] (1, 0) 1 2
      = smul2 (min 2 (norm2 (vsub ((1 : ℝ), (0 : ℝ)) (0, 0))))
          (normalization (vsub (1, 0) (0, 0))) := by
  have hd : norm2 (vsub ((1 : ℝ), (0 : ℝ)) ((0 : ℝ), (0 : ℝ))) ≠ 0 := by
    have h1 : vsub ((1 : ℝ), (0 : ℝ)) ((0 : ℝ), (0 : ℝ)) = (1, 0) := by
      simp [vsub]
    rw [h1]
    have h2 : norm2 ((1 : ℝ), (0 : ℝ)) = 1 := by
      show Real.sqrt ((1 : ℝ) ^ 2 + (0 : ℝ) ^ 2) = 1
      rw [show (1 : ℝ) ^ 2 + (0 : ℝ) ^ 2 = 1 by norm_num, Real.sqrt_one]
    rw [h2]
    norm_num
  exact ⟨hd, by norm_num, C3_zero_neighbors_pure_seek (0, 0) (1, 0) 1 2 hd (by norm_num)⟩

/-! ## Claim C10 -/

/-- C10: the velocity written by update_swarm_control does not depend
on the max_speed stored on the communicator: two communicators that
differ only in that constructor argument command the same velocity,
because the law reads control_object.max_speed. -/
theorem C10_stored_max_speed_unused (co : ControlObject) (nbrs : List (ℝ × ℝ))
    (sr m₁ m₂ : ℝ) (target : ℝ × ℝ) :
    update_swarm_control ⟨co, nbrs, sr, m₁⟩ target
      = update_swarm_control ⟨co, nbrs, sr, m₂⟩ target := rfl

end Pion
